import Mathlib

/-!
Shallow embedding of the speedwagon wire-protocol codec and accessory-state
model (`src/src/lib.rs`).

Conventions of the embedding:
* Machine integers become `Nat`; a Rust `as u8` cast becomes `% 256`.
* A byte stream (`Read`) is a `List Nat`; each read primitive returns
  `Option (value × rest)`, `none` meaning the stream is exhausted.
* A fallible Rust function returning `Result<T>` becomes
  `Except Error T`.  A Rust function that can *panic* (an `.unwrap()` on a
  failed read) is wrapped in one more `Option`: `none` models the panic.
* An in-memory writer never fails, so serialization returns the byte list
  directly.
-/

namespace Speedwagon

/-- The `Error` enum of `lib.rs`. Payloads of `std::io::Error` /
`FromUtf8Error` carry no information the claims need and are dropped;
`InvalidResponseCode` keeps its offending byte. -/
inductive Error where
  | InvalidResponseCode (code : Nat)
  | InvalidPacketType
  | IdentifyErrorReadingVersion
  | IdentifyErrorReadingNumCmds
  | IdentifyErrorReadingNameLength
  | IdentifyErrorReadingName
  | IdentifyFailedToConvertName
  | PacketWriteFailed
  | PacketReadFailed
  | StateSerializeFailed
  | StateDeserializeFailed
deriving DecidableEq, Repr

deriving instance DecidableEq for Except

/-- The `ResponseCode` enum (`lib.rs` lines 44-52). -/
inductive ResponseCode where
  | Success
  | Unknown
  | InvalidPacketType
  | InvalidCommand
  | InsufficientFunctionParameters
deriving DecidableEq, Repr

/-- `ToPrimitive::to_u8` derived by `Primitive` on `ResponseCode`:
the discriminant values 0,1,2,3,5. It never fails, so the Rust
`Option<u8>` is collapsed to the value. -/
def ResponseCode.to_u8 : ResponseCode → Nat
  | .Success => 0
  | .Unknown => 1
  | .InvalidPacketType => 2
  | .InvalidCommand => 3
  | .InsufficientFunctionParameters => 5

/-- `FromPrimitive::from_u8` derived by `Primitive` on `ResponseCode`. -/
def ResponseCode.from_u8 : Nat → Option ResponseCode
  | 0 => some .Success
  | 1 => some .Unknown
  | 2 => some .InvalidPacketType
  | 3 => some .InvalidCommand
  | 5 => some .InsufficientFunctionParameters
  | _ => none

/-- `Version(pub u16)` (`lib.rs` line 334): `val` models the `.0` field. -/
structure Version where
  val : Nat
deriving DecidableEq, Repr

/-- `Version::new` (`lib.rs` lines 337-343): mask and pack
major/minor/patch into bits [15:10]/[9:4]/[3:0]. -/
def Version.new (major minor patch : Nat) : Version :=
  ⟨(major &&& 0x3f) <<< 10 ||| (minor &&& 0x3f) <<< 4 ||| (patch &&& 0xf)⟩

/-- `Version::major` (`lib.rs` lines 345-347). -/
def Version.major (v : Version) : Nat := (v.val >>> 10) &&& 0x3f

/-- `Version::minor` (`lib.rs` lines 349-351). -/
def Version.minor (v : Version) : Nat := (v.val >>> 4) &&& 0x3f

/-- `Version::patch` (`lib.rs` lines 353-355). -/
def Version.patch (v : Version) : Nat := v.val &&& 0xf

/-- The `Identify` struct (`lib.rs` lines 365-370). `name` is the UTF-8
byte content of the Rust `String`; `num_cmds` is the `usize` field. -/
structure Identify where
  name : List Nat
  version : Version
  num_cmds : Nat
deriving DecidableEq, Repr

/-- Continuation byte test: `0x80..=0xBF`. -/
def isCont (b : Nat) : Bool := 0x80 ≤ b && b ≤ 0xBF

/-- Models `std::string::String::from_utf8` validity (the standard UTF-8
table: no overlong forms, no surrogates, max `U+10FFFF`); a Rust `String`'s
own bytes always satisfy it. -/
def validUtf8 : List Nat → Bool
  | [] => true
  | b :: rest =>
    if b ≤ 0x7F then validUtf8 rest
    else if b < 0xC2 then false
    else if b ≤ 0xDF then
      match rest with
      | c1 :: r => isCont c1 && validUtf8 r
      | [] => false
    else if b ≤ 0xEF then
      match rest with
      | c1 :: c2 :: r =>
        (if b == 0xE0 then decide (0xA0 ≤ c1 ∧ c1 ≤ 0xBF)
         else if b == 0xED then decide (0x80 ≤ c1 ∧ c1 ≤ 0x9F)
         else isCont c1) && isCont c2 && validUtf8 r
      | _ => false
    else if b ≤ 0xF4 then
      match rest with
      | c1 :: c2 :: c3 :: r =>
        (if b == 0xF0 then decide (0x90 ≤ c1 ∧ c1 ≤ 0xBF)
         else if b == 0xF4 then decide (0x80 ≤ c1 ∧ c1 ≤ 0x8F)
         else isCont c1) && isCont c2 && isCont c3 && validUtf8 r
      | _ => false
    else false

/-- `byteorder` little-endian `u16` write: low byte then high byte. -/
def write_u16_le (v : Nat) : List Nat := [v % 256, v / 256 % 256]

/-- `byteorder` `read_u8`: `none` when the stream is exhausted. -/
def read_u8 : List Nat → Option (Nat × List Nat)
  | [] => none
  | b :: r => some (b, r)

/-- `byteorder` little-endian `read_u16`: needs two bytes. -/
def read_u16_le : List Nat → Option (Nat × List Nat)
  | b0 :: b1 :: r => some (b0 + 256 * b1, r)
  | _ => none

/-- `Read::read_exact` into a buffer of length `n`. -/
def read_exact (n : Nat) (l : List Nat) : Option (List Nat × List Nat) :=
  if n ≤ l.length then some (l.take n, l.drop n) else none

/-- `Identify::serialize` (`lib.rs` lines 373-386): version `u16` LE,
`num_cmds as u8`, `name.len() as u8`, then the raw name bytes. -/
def Identify.serialize (i : Identify) : List Nat :=
  write_u16_le i.version.val ++ [i.num_cmds % 256, i.name.length % 256] ++ i.name

/-- `Identify::deserialize` (`lib.rs` lines 388-417). The version read
maps its error to `IdentifyErrorReadingName`, exactly as line 394 does. -/
def Identify.deserialize (l : List Nat) :
    Except Error (Identify × List Nat) :=
  match read_u16_le l with
  | none => .error .IdentifyErrorReadingName
  | some (version, l) =>
    match read_u8 l with
    | none => .error .IdentifyErrorReadingNumCmds
    | some (num_cmds, l) =>
      match read_u8 l with
      | none => .error .IdentifyErrorReadingNameLength
      | some (name_len, l) =>
        match read_exact name_len l with
        | none => .error .IdentifyErrorReadingName
        | some (buf, l) =>
          if validUtf8 buf then .ok (⟨buf, ⟨version⟩, num_cmds⟩, l)
          else .error .IdentifyFailedToConvertName

/-- The `PacketType` enum (`lib.rs` lines 54-63). `Status`'s `[u8; 8]`
is a byte list (length 8 for constructible values). -/
inductive PacketType where
  | Connect
  | Disconnect
  | Cmd (index : Nat) (params : List Nat)
  | Identify (identity : Speedwagon.Identify)
  | Status (data : List Nat)
  | Response (code : ResponseCode) (data : List Nat)
deriving DecidableEq, Repr

/-- `PacketType::to_u8` (`lib.rs` lines 66-78). -/
def PacketType.to_u8 : PacketType → Nat
  | .Connect => 0
  | .Disconnect => 1
  | .Cmd _ _ => 2
  | .Identify _ => 3
  | .Status _ => 4
  | .Response _ _ => 5

/-- The `Packet` struct (`lib.rs` lines 81-85). -/
structure Packet where
  id : Nat
  typ : PacketType
deriving DecidableEq, Repr

/-- `Packet::serialize` (`lib.rs` lines 100-137): 2-byte LE id, tag byte,
then the variant payload. `Status` writes its data twice (the loop at
line 124 and the `write` at line 127); `Response` writes no length byte
before its data — both exactly as the source does. -/
def Packet.serialize (p : Packet) : List Nat :=
  write_u16_le p.id ++ [p.typ.to_u8] ++
    match p.typ with
    | .Connect => []
    | .Disconnect => []
    | .Cmd index params => index :: params.length % 256 :: params
    | .Identify identity => identity.serialize
    | .Status data => data ++ data
    | .Response code data => code.to_u8 :: data

/-- The `match typ` of `Packet::deserialize` (`lib.rs` lines 147-192).
The outer `Option` models panics: each `.unwrap()` on a failed read, on a
failed nested `Identify::deserialize` (line 164) or on an unknown
`ResponseCode` byte (line 178) is a `none`. -/
def readPacketType (tag : Nat) (l : List Nat) :
    Option (Except Error (PacketType × List Nat)) :=
  match tag with
  | 0 => some (.ok (.Connect, l))
  | 1 => some (.ok (.Disconnect, l))
  | 2 =>
    match read_u8 l with
    | none => none
    | some (index, l) =>
      match read_u8 l with
      | none => none
      | some (num_params, l) =>
        match read_exact num_params l with
        | none => none
        | some (params, l) => some (.ok (.Cmd index params, l))
  | 3 =>
    match Identify.deserialize l with
    | .error _ => none
    | .ok (identity, l) => some (.ok (.Identify identity, l))
  | 4 =>
    match read_exact 8 l with
    | none => none
    | some (data, l) => some (.ok (.Status data, l))
  | 5 =>
    match read_u8 l with
    | none => none
    | some (code, l) =>
      match ResponseCode.from_u8 code with
      | none => none
      | some code =>
        match read_u8 l with
        | none => none
        | some (data_len, l) =>
          if data_len > 0 then
            match read_exact data_len l with
            | none => none
            | some (data, l) => some (.ok (.Response code data, l))
          else some (.ok (.Response code [], l))
  | _ => some (.error .InvalidPacketType)

/-- `Packet::deserialize` (`lib.rs` lines 139-196). The id and tag reads
are `.unwrap()`ed (lines 144-145): `none` on a short stream. The decoded
`typ` value is computed and then *discarded*: line 194 returns
`Err(Error::InvalidResponseCode(0))` unconditionally. -/
def Packet.deserialize (l : List Nat) : Option (Except Error Packet) :=
  match read_u16_le l with
  | none => none
  | some (_, l) =>
    match read_u8 l with
    | none => none
    | some (tag, l) =>
      match readPacketType tag l with
      | none => none
      | some _ => some (.error (.InvalidResponseCode 0))

/-- The `RSNavState` struct (`lib.rs` lines 419-431): nine boolean
accessory flags. -/
structure RSNavState where
  led_bar : Bool
  led_bar_low_mode : Bool
  high_beam : Bool
  led_bar_active : Bool
  reverse_camera : Bool
  reverse_lights : Bool
  reverse : Bool
  reverse_lights_active : Bool
  trunk_lights : Bool
deriving DecidableEq, Repr

/-- `RSNavState::new` (`lib.rs` lines 434-447): all flags false. -/
def RSNavState.new : RSNavState :=
  ⟨false, false, false, false, false, false, false, false, false⟩

/-- `RSNavState::set_led_bar_active` (`lib.rs` lines 449-457). -/
def RSNavState.set_led_bar_active (s : RSNavState) (on_ : Bool) : RSNavState :=
  let s := { s with led_bar_active := on_ }
  if s.led_bar_active then { s with led_bar := s.high_beam }
  else { s with led_bar := false }

/-- `RSNavState::set_led_bar_low_mode` (`lib.rs` lines 459-461). -/
def RSNavState.set_led_bar_low_mode (s : RSNavState) (on_ : Bool) : RSNavState :=
  { s with led_bar_low_mode := on_ }

/-- `RSNavState::force_led_bar` (`lib.rs` lines 463-465). -/
def RSNavState.force_led_bar (s : RSNavState) (on_ : Bool) : RSNavState :=
  { s with led_bar := on_ }

/-- `RSNavState::set_trunk_lights` (`lib.rs` lines 467-469). -/
def RSNavState.set_trunk_lights (s : RSNavState) (on_ : Bool) : RSNavState :=
  { s with trunk_lights := on_ }

/-- `RSNavState::set_reverse_lights_active` (`lib.rs` lines 471-479). -/
def RSNavState.set_reverse_lights_active (s : RSNavState) (on_ : Bool) :
    RSNavState :=
  let s := { s with reverse_lights_active := on_ }
  if s.reverse_lights_active then { s with reverse_lights := s.reverse }
  else { s with reverse_lights := false }

/-- `RSNavState::force_reverse_lights` (`lib.rs` lines 481-483). -/
def RSNavState.force_reverse_lights (s : RSNavState) (on_ : Bool) : RSNavState :=
  { s with reverse_lights := on_ }

/-- `RSNavState::force_reverse_camera` (`lib.rs` lines 485-487). -/
def RSNavState.force_reverse_camera (s : RSNavState) (on_ : Bool) : RSNavState :=
  { s with reverse_camera := on_ }

/-- `RSNavState::reverse` (`lib.rs` lines 489-501); named `reverse_op`
because the Lean field projection `RSNavState.reverse` already takes the
method's name. Note the `if self.reverse_lights_active` at line 497 has
no `else`: `reverse_lights` is left unchanged when activation is off. -/
def RSNavState.reverse_op (s : RSNavState) (on_ : Bool) : RSNavState :=
  let s := { s with reverse := on_ }
  if !s.reverse then { s with reverse_lights := false, reverse_camera := false }
  else
    let s := { s with reverse_camera := true }
    if s.reverse_lights_active then { s with reverse_lights := true } else s

/-- `RSNavState::high_beam` (`lib.rs` lines 503-513); named
`high_beam_op` because the field projection takes the method's name. -/
def RSNavState.high_beam_op (s : RSNavState) (on_ : Bool) : RSNavState :=
  let s := { s with high_beam := on_ }
  if s.high_beam then
    if s.led_bar_active then { s with led_bar := true } else s
  else { s with led_bar := false }

/-- `RSNavState::serialize` (`lib.rs` lines 515-533): two bytes, byte 0
bits 0-3 and byte 1 bits 0-4; the in-memory writer never fails. -/
def RSNavState.serialize (s : RSNavState) : List Nat :=
  [s.led_bar.toNat <<< 0 ||| s.led_bar_low_mode.toNat <<< 1 |||
     s.high_beam.toNat <<< 2 ||| s.led_bar_active.toNat <<< 3,
   s.reverse_camera.toNat <<< 0 ||| s.reverse_lights.toNat <<< 1 |||
     s.reverse.toNat <<< 2 ||| s.reverse_lights_active.toNat <<< 3 |||
     s.trunk_lights.toNat <<< 4]

/-- `RSNavState::deserialize` (`lib.rs` lines 535-555): each flag is
`data & (1 << n) > 0`. -/
def RSNavState.deserialize (l : List Nat) : Except Error RSNavState :=
  match read_u8 l with
  | none => .error .StateDeserializeFailed
  | some (d0, l) =>
    match read_u8 l with
    | none => .error .StateDeserializeFailed
    | some (d1, _) =>
      .ok { led_bar := decide (d0 &&& (1 <<< 0) > 0)
            led_bar_low_mode := decide (d0 &&& (1 <<< 1) > 0)
            high_beam := decide (d0 &&& (1 <<< 2) > 0)
            led_bar_active := decide (d0 &&& (1 <<< 3) > 0)
            reverse_camera := decide (d1 &&& (1 <<< 0) > 0)
            reverse_lights := decide (d1 &&& (1 <<< 1) > 0)
            reverse := decide (d1 &&& (1 <<< 2) > 0)
            reverse_lights_active := decide (d1 &&& (1 <<< 3) > 0)
            trunk_lights := decide (d1 &&& (1 <<< 4) > 0) }

/-- One control operation of the accessory state model, with its boolean
argument: the nine public mutators of `RSNavState`. -/
inductive Op where
  | set_led_bar_active (on_ : Bool)
  | set_led_bar_low_mode (on_ : Bool)
  | force_led_bar (on_ : Bool)
  | set_trunk_lights (on_ : Bool)
  | set_reverse_lights_active (on_ : Bool)
  | force_reverse_lights (on_ : Bool)
  | force_reverse_camera (on_ : Bool)
  | reverse (on_ : Bool)
  | high_beam (on_ : Bool)
deriving DecidableEq, Repr

/-- Apply one control operation to a state. -/
def Op.apply (op : Op) (s : RSNavState) : RSNavState :=
  match op with
  | .set_led_bar_active b => s.set_led_bar_active b
  | .set_led_bar_low_mode b => s.set_led_bar_low_mode b
  | .force_led_bar b => s.force_led_bar b
  | .set_trunk_lights b => s.set_trunk_lights b
  | .set_reverse_lights_active b => s.set_reverse_lights_active b
  | .force_reverse_lights b => s.force_reverse_lights b
  | .force_reverse_camera b => s.force_reverse_camera b
  | .reverse b => s.reverse_op b
  | .high_beam b => s.high_beam_op b

/-- Run a sequence of control operations, in order, from a state. -/
def runOps (l : List Op) (s : RSNavState) : RSNavState :=
  l.foldl (fun s op => op.apply s) s

/-- The two operations that set a reverse-related output flag directly,
bypassing the `reverse` derivation. -/
def Op.bypassesReverseDerivation : Op → Bool
  | .force_reverse_lights _ => true
  | .force_reverse_camera _ => true
  | _ => false

/-- A state whose `reverse_lights` flag is on while
`reverse_lights_active` is off (reachable via `force_reverse_lights`). -/
def revLightsOnState : RSNavState :=
  ⟨false, false, false, false, false, true, false, false, false⟩

/-- C1: the claim says `Packet::deserialize ∘ Packet::serialize` is the
identity, but deserializing the serialization of the packet
`{id := 0, typ := Connect}` returns `Err(InvalidResponseCode(0))`
instead of the packet: line 194 of `lib.rs` discards the decoded variant
and returns that error unconditionally. -/
theorem packet_roundtrip_fails_on_connect :
    Packet.deserialize (Packet.serialize ⟨0, .Connect⟩) =
      some (.error (.InvalidResponseCode 0)) := rfl

/-- C3: the claim says a truncated stream yields an I/O-shortfall error
value and never a panic, but `Packet::deserialize` unwraps the id read
(line 144), so on a one-byte (or empty) stream it panics — modelled here
as `none`. -/
theorem packet_deserialize_truncated_panics :
    Packet.deserialize [0] = none ∧ Packet.deserialize [] = none :=
  ⟨rfl, rfl⟩

/-- C4: for every assignment of the nine flags, `RSNavState::serialize`
emits exactly 2 bytes in the fixed bit layout (byte 0 bits 0-3 =
led_bar, led_bar_low_mode, high_beam, led_bar_active; byte 1 bits 0-4 =
reverse_camera, reverse_lights, reverse, reverse_lights_active,
trunk_lights), the unused bits are zero, and `RSNavState::deserialize`
of those bytes restores the state. -/
theorem rsnav_state_roundtrip :
    ∀ (a b c d e f g h i : Bool),
      (RSNavState.serialize (RSNavState.mk a b c d e f g h i)).length = 2 ∧
      (RSNavState.serialize (RSNavState.mk a b c d e f g h i)).getD 0 0 < 16 ∧
      (RSNavState.serialize (RSNavState.mk a b c d e f g h i)).getD 1 0 < 32 ∧
      ((RSNavState.serialize (RSNavState.mk a b c d e f g h i)).getD 0 0).testBit 0 = a ∧
      ((RSNavState.serialize (RSNavState.mk a b c d e f g h i)).getD 0 0).testBit 1 = b ∧
      ((RSNavState.serialize (RSNavState.mk a b c d e f g h i)).getD 0 0).testBit 2 = c ∧
      ((RSNavState.serialize (RSNavState.mk a b c d e f g h i)).getD 0 0).testBit 3 = d ∧
      ((RSNavState.serialize (RSNavState.mk a b c d e f g h i)).getD 1 0).testBit 0 = e ∧
      ((RSNavState.serialize (RSNavState.mk a b c d e f g h i)).getD 1 0).testBit 1 = f ∧
      ((RSNavState.serialize (RSNavState.mk a b c d e f g h i)).getD 1 0).testBit 2 = g ∧
      ((RSNavState.serialize (RSNavState.mk a b c d e f g h i)).getD 1 0).testBit 3 = h ∧
      ((RSNavState.serialize (RSNavState.mk a b c d e f g h i)).getD 1 0).testBit 4 = i ∧
      RSNavState.deserialize
          (RSNavState.serialize (RSNavState.mk a b c d e f g h i)) =
        .ok (RSNavState.mk a b c d e f g h i) := by
  decide

/-- C5 counterexample: the claim says `reverse(true)` leaves the state
with `reverse_lights = reverse_lights_active`, but starting from
`revLightsOnState` (lights forced on, activation off) the lights stay on
because line 497's `if` has no `else`. -/
theorem reverse_true_counterexample :
    ¬ ((revLightsOnState.reverse_op true).reverse = true ∧
       (revLightsOnState.reverse_op true).reverse_camera = true ∧
       (revLightsOnState.reverse_op true).reverse_lights =
         (revLightsOnState.reverse_op true).reverse_lights_active ∧
       (revLightsOnState.reverse_op true).led_bar = revLightsOnState.led_bar ∧
       (revLightsOnState.reverse_op true).led_bar_low_mode =
         revLightsOnState.led_bar_low_mode ∧
       (revLightsOnState.reverse_op true).high_beam = revLightsOnState.high_beam ∧
       (revLightsOnState.reverse_op true).led_bar_active =
         revLightsOnState.led_bar_active ∧
       (revLightsOnState.reverse_op true).reverse_lights_active =
         revLightsOnState.reverse_lights_active ∧
       (revLightsOnState.reverse_op true).trunk_lights =
         revLightsOnState.trunk_lights) := by
  decide

/-- C5 amended: for every state, after `reverse(true)` the state has
`reverse = true`, `reverse_camera = true`, and `reverse_lights` is on
iff it was already on or `reverse_lights_active` is on (the activation
test has no `else`, leaving the lights unchanged when activation is
off); the other six fields are unchanged. -/
theorem reverse_true_amended :
    ∀ (a b c d e f g h i : Bool),
      ((RSNavState.mk a b c d e f g h i).reverse_op true).reverse = true ∧
      ((RSNavState.mk a b c d e f g h i).reverse_op true).reverse_camera = true ∧
      ((RSNavState.mk a b c d e f g h i).reverse_op true).reverse_lights = (f || h) ∧
      ((RSNavState.mk a b c d e f g h i).reverse_op true).led_bar = a ∧
      ((RSNavState.mk a b c d e f g h i).reverse_op true).led_bar_low_mode = b ∧
      ((RSNavState.mk a b c d e f g h i).reverse_op true).high_beam = c ∧
      ((RSNavState.mk a b c d e f g h i).reverse_op true).led_bar_active = d ∧
      ((RSNavState.mk a b c d e f g h i).reverse_op true).reverse_lights_active = h ∧
      ((RSNavState.mk a b c d e f g h i).reverse_op true).trunk_lights = i := by
  decide

/-- C7: every control operation of the accessory state model is
idempotent: applying the same operation with the same argument twice
yields the same state as applying it once. -/
theorem control_ops_idempotent :
    ∀ (op : Op) (s : RSNavState), op.apply (op.apply s) = op.apply s := by
  intro op s
  obtain ⟨a, b, c, d, e, f, g, h, i⟩ := s
  cases op <;> rename_i on_ <;> revert on_ a b c d e f g h i <;> decide

/-- C2: the claim says an unknown tag byte fails with the
invalid-packet-type error, but the `Err(Error::InvalidPacketType)`
computed by the default match arm (line 191) is discarded and line 194
returns `Err(InvalidResponseCode(0))` instead: for every stream whose
third byte is an unknown tag (the known tags are 0-5), that other error
is returned. -/
theorem unknown_tag_yields_invalid_response_code (b0 b1 tag : Nat)
    (rest : List Nat) (h : 6 ≤ tag) :
    Packet.deserialize (b0 :: b1 :: tag :: rest) =
      some (.error (.InvalidResponseCode 0)) := by
  obtain ⟨n, rfl⟩ : ∃ n, tag = n + 6 := ⟨tag - 6, by omega⟩
  rfl

/-- C2 witness: the spec's own example, tag byte 99. -/
theorem unknown_tag_yields_invalid_response_code_witness :
    Packet.deserialize [0, 0, 99] = some (.error (.InvalidResponseCode 0)) :=
  unknown_tag_yields_invalid_response_code 0 0 99 [] (by omega)

/-- C10: whenever `Packet::deserialize` returns at all (does not panic),
the returned value is `Err(InvalidResponseCode(0))` — never `Ok` — since
line 194 discards the decoded variant and returns that error
unconditionally. -/
theorem packet_deserialize_always_invalid_response_code (l : List Nat)
    (r : Except Error Packet) (h : Packet.deserialize l = some r) :
    r = .error (.InvalidResponseCode 0) := by
  unfold Packet.deserialize at h
  repeat' split at h
  all_goals simp_all

/-- C10 witness: instantiated on the stream `[0, 0, 0]`, on which
deserialization returns a value. -/
theorem packet_deserialize_always_invalid_response_code_witness :
    (Except.error (Error.InvalidResponseCode 0) : Except Error Packet) =
      .error (.InvalidResponseCode 0) :=
  packet_deserialize_always_invalid_response_code [0, 0, 0]
    (.error (.InvalidResponseCode 0)) rfl

/-- C6 counterexample: the claimed operation set contains
`force_reverse_lights`, and the state reached from the initial state by
`force_reverse_lights(true)` alone has `reverse = false` with
`reverse_lights = true`. -/
theorem reverse_invariant_counterexample :
    ¬ ((runOps [Op.force_reverse_lights true] RSNavState.new).reverse = false →
        (runOps [Op.force_reverse_lights true] RSNavState.new).reverse_lights
            = false ∧
        (runOps [Op.force_reverse_lights true] RSNavState.new).reverse_camera
            = false) := by
  decide

/-- The reverse-output invariant of §3 of the spec: whenever `reverse`
is off, both reverse outputs are off. -/
def ReverseInv (s : RSNavState) : Prop :=
  s.reverse = false → s.reverse_lights = false ∧ s.reverse_camera = false

instance (s : RSNavState) : Decidable (ReverseInv s) :=
  inferInstanceAs (Decidable (_ → _ ∧ _))

/-- Every control operation other than the two reverse-related force
overrides preserves the reverse-output invariant. -/
theorem reverseInv_step (op : Op) (s : RSNavState)
    (hop : op.bypassesReverseDerivation = false) (hs : ReverseInv s) :
    ReverseInv (op.apply s) := by
  obtain ⟨a, b, c, d, e, f, g, h9, i⟩ := s
  revert hop hs
  cases op <;> rename_i on_ <;> revert on_ a b c d e f g h9 i <;> decide

/-- The reverse-output invariant holds along any run of non-bypassing
operations from an invariant-satisfying state. -/
theorem reverseInv_runOps (l : List Op) : ∀ (s : RSNavState),
    (∀ op ∈ l, op.bypassesReverseDerivation = false) → ReverseInv s →
    ReverseInv (runOps l s) := by
  induction l with
  | nil => intro s _ hs; exact hs
  | cons op l ih =>
    intro s hl hs
    exact ih (op.apply s)
      (fun o ho => hl o (List.mem_cons_of_mem _ ho))
      (reverseInv_step op s (hl op (List.mem_cons_self op l)) hs)

/-- C6 amended: for every state reachable from the all-false initial
state by control operations *excluding* `force_reverse_lights` and
`force_reverse_camera` (the explicit overrides that bypass derivation),
if `reverse` is false then `reverse_lights` and `reverse_camera` are
both false. -/
theorem reverse_invariant_amended (l : List Op)
    (h : ∀ op ∈ l, op.bypassesReverseDerivation = false) :
    (runOps l RSNavState.new).reverse = false →
      (runOps l RSNavState.new).reverse_lights = false ∧
      (runOps l RSNavState.new).reverse_camera = false :=
  reverseInv_runOps l RSNavState.new h (by decide)

/-- C6 amended witness: the run `reverse(true); reverse(false)` ends
with `reverse` off and both reverse outputs off. -/
theorem reverse_invariant_amended_witness :
    (runOps [Op.reverse true, Op.reverse false] RSNavState.new).reverse_lights
        = false ∧
    (runOps [Op.reverse true, Op.reverse false] RSNavState.new).reverse_camera
        = false :=
  reverse_invariant_amended [Op.reverse true, Op.reverse false] (by decide)
    (by decide)

set_option maxRecDepth 8000 in
/-- C8 counterexample: the claim quantifies over *any* `num_cmds` and
*any* name, but `Identify::serialize` truncates `num_cmds` (line 380)
and the name length (line 382) to one byte: with `num_cmds = 256` the
round trip returns 0, and with a 256-byte name the round trip does not
return the original identity. -/
theorem identify_roundtrip_counterexample :
    Identify.deserialize (Identify.serialize ⟨[], ⟨0⟩, 256⟩) =
      .ok (⟨[], ⟨0⟩, 0⟩, []) ∧
    (Identify.mk [] ⟨0⟩ 0) ≠ (Identify.mk [] ⟨0⟩ 256) ∧
    Identify.deserialize (Identify.serialize ⟨List.replicate 256 97, ⟨0⟩, 0⟩) ≠
      .ok (⟨List.replicate 256 97, ⟨0⟩, 0⟩, []) := by
  refine ⟨rfl, by decide, ?_⟩
  decide

/-- C8 amended: for every identity whose name (valid UTF-8, as any Rust
`String` is) is at most 255 bytes and whose `num_cmds` is at most 255,
deserializing the serialization returns the identity (consuming the
whole byte sequence). -/
theorem identify_roundtrip_amended (name : List Nat) (version num_cmds : Nat)
    (hutf : validUtf8 name = true) (hlen : name.length ≤ 255)
    (hver : version < 65536) (hcmds : num_cmds ≤ 255) :
    Identify.deserialize (Identify.serialize ⟨name, ⟨version⟩, num_cmds⟩) =
      .ok (⟨name, ⟨version⟩, num_cmds⟩, []) := by
  have h1 : num_cmds % 256 = num_cmds := Nat.mod_eq_of_lt (by omega)
  have h2 : name.length % 256 = name.length := Nat.mod_eq_of_lt (by omega)
  have h3 : version % 256 + 256 * (version / 256 % 256) = version := by omega
  simp only [Identify.serialize, Identify.deserialize, write_u16_le,
    List.cons_append, List.nil_append, read_u16_le, read_u8, read_exact,
    h1, h2, h3, le_refl, if_true, List.take_length, List.drop_length, hutf]

/-- C8 amended witness: name "a", version value 5, three commands. -/
theorem identify_roundtrip_amended_witness :
    Identify.deserialize (Identify.serialize ⟨[97], ⟨5⟩, 3⟩) =
      .ok (⟨[97], ⟨5⟩, 3⟩, []) :=
  identify_roundtrip_amended [97] 5 3 (by decide) (by decide) (by norm_num)
    (by norm_num)

/-- C9: for all 8-bit inputs, `Version::new` then the accessors return
the mask-truncated inputs (`major & 0x3F`, `minor & 0x3F`,
`patch & 0x0F`); in particular `(5,2,9)` reads back as `5.2.9` and
`Version::new(70,0,0)` reads back major 6. -/
theorem version_new_accessors (major minor patch : Nat)
    (hmaj : major < 256) (hmin : minor < 256) (hpat : patch < 256) :
    (Version.new major minor patch).major = major &&& 0x3f ∧
    (Version.new major minor patch).minor = minor &&& 0x3f ∧
    (Version.new major minor patch).patch = patch &&& 0xf ∧
    (Version.new 5 2 9).major = 5 ∧ (Version.new 5 2 9).minor = 2 ∧
    (Version.new 5 2 9).patch = 9 ∧ (Version.new 70 0 0).major = 6 := by
  have andmod63 : ∀ m : Nat, m &&& 63 = m % 64 := fun m => by
    have h := Nat.and_pow_two_sub_one_eq_mod m 6
    norm_num at h
    exact h
  have andmod15 : ∀ m : Nat, m &&& 15 = m % 16 := fun m => by
    have h := Nat.and_pow_two_sub_one_eq_mod m 4
    norm_num at h
    exact h
  have hx : major &&& 63 < 64 := lt_of_le_of_lt Nat.and_le_right (by norm_num)
  have hy : minor &&& 63 < 64 := lt_of_le_of_lt Nat.and_le_right (by norm_num)
  have hz : patch &&& 15 < 16 := lt_of_le_of_lt Nat.and_le_right (by norm_num)
  have hpack : ∀ (x y z : Nat), x < 64 → y < 64 → z < 16 →
      (x <<< 10 ||| y <<< 4 ||| z) = 1024 * x + 16 * y + z := by
    intro x y z hx hy hz
    rw [Nat.shiftLeft_eq, Nat.shiftLeft_eq]
    have e1 : x * 2 ^ 10 ||| y * 2 ^ 4 = 2 ^ 10 * x + y * 2 ^ 4 := by
      rw [mul_comm x (2 ^ 10)]
      exact (Nat.mul_add_lt_is_or (by omega) x).symm
    rw [e1]
    have e2 : 2 ^ 10 * x + y * 2 ^ 4 = 2 ^ 4 * (2 ^ 6 * x + y) := by ring
    rw [e2, ← Nat.mul_add_lt_is_or (show z < 2 ^ 4 by omega) (2 ^ 6 * x + y)]
    ring
  refine ⟨?_, ?_, ?_, by decide, by decide, by decide, by decide⟩
  · simp only [Version.new, Version.major]
    rw [hpack _ _ _ hx hy hz, Nat.shiftRight_eq_div_pow]
    simp only [andmod63, andmod15]
    norm_num
    omega
  · simp only [Version.new, Version.minor]
    rw [hpack _ _ _ hx hy hz, Nat.shiftRight_eq_div_pow]
    simp only [andmod63, andmod15]
    norm_num
    omega
  · simp only [Version.new, Version.patch]
    rw [hpack _ _ _ hx hy hz]
    simp only [andmod63, andmod15]
    omega

/-- C9 witness: instantiated at the spec's truncation example
`Version::new(70, 0, 0)` (and the other concrete examples with it). -/
theorem version_new_accessors_witness :
    (Version.new 70 0 0).major = 70 &&& 0x3f ∧
    (Version.new 70 0 0).minor = 0 &&& 0x3f ∧
    (Version.new 70 0 0).patch = 0 &&& 0xf ∧
    (Version.new 5 2 9).major = 5 ∧ (Version.new 5 2 9).minor = 2 ∧
    (Version.new 5 2 9).patch = 9 ∧ (Version.new 70 0 0).major = 6 :=
  version_new_accessors 70 0 0 (by norm_num) (by norm_num) (by norm_num)

end Speedwagon
